import Mathlib

/-!
Shallow embedding of `src/drive.go` (plexdrive multi-account Google Drive
gateway).  External effects (network calls, the OAuth library, file IO,
JSON, the wall clock) are modelled as explicit oracle parameters; the
control flow of each Go function is translated directly.  Errors are Go
`error` values, modelled as `Except Err` (or, where the Go function
returns a `(value, error)` pair, as an explicit pair).
-/

/-- Go `error` values, modelled by their message string. -/
abbrev Err := String

/-- A parent reference as returned by the Drive v2 API (`gdrive.ParentReference`):
only the `Id` field is used by the source. -/
structure ParentRef where
  id : String
deriving Repr, DecidableEq

/-- The fields of `gdrive.File` that `drive.go` reads: `Id`, `Title`,
`MimeType`, `FileSize` (an int64), `ModifiedDate`, `DownloadUrl`, `Parents`. -/
structure RawFile where
  id : String
  title : String
  mimeType : String
  fileSize : Int
  modifiedDate : String
  downloadUrl : String
  parents : List ParentRef
deriving Repr, DecidableEq

/-- The `APIObject` produced by `mapDriveToAPIObject`.  `time.Time` instants
are modelled as integers; `Size` is a `uint64`, modelled as the value of the
Go conversion `uint64(file.FileSize)`. -/
structure APIObject where
  id : String
  parents : List String
  name : String
  isDir : Bool
  size : Nat
  mtime : Int
  downloadURL : String
deriving Repr, DecidableEq

/-- The folder MIME type compared against in `mapDriveToAPIObject`. -/
def folderMimeType : String := "application/vnd.google-apps.folder"

/-- Embedding of `mapDriveToAPIObject` (drive.go:298-318).  `parse` is the
oracle for `time.Parse(time.RFC3339, ·)` (`none` = parse error) and `now` is
the wall-clock instant `time.Now()` would return at mapping time.  On parse
failure the modification time falls back to `now`; the function is total
(never returns an error).  `uint64(file.FileSize)` is `fileSize % 2^64`. -/
def mapDriveToAPIObject (parse : String → Option Int) (now : Int)
    (file : RawFile) : APIObject :=
  let mtime := match parse file.modifiedDate with
    | some t => t
    | none => now
  { id := file.id
    parents := file.parents.map (fun p => p.id)
    name := file.title
    isDir := file.mimeType == folderMimeType
    size := (file.fileSize % (2 ^ 64 : Int)).toNat
    mtime := mtime
    downloadURL := file.downloadUrl }

/-- Embedding of `Drive.rotateAccounts` (drive.go:251-258), as the transition
on the active account index: `numConfigs` is `len(d.configs)` and
`activeAccountID` the current index; the result is the new index. -/
def rotateAccounts (numConfigs : Nat) (activeAccountID : Nat) : Nat :=
  if activeAccountID + 1 > numConfigs then 1 else activeAccountID + 1

/-- The initial value of `d.activeAccountID` set in `NewDriveClient`
(drive.go:33). -/
def initialActiveAccountID : Nat := 1

lemma rotateAccounts_step (n i : Nat) (_h1 : 1 ≤ i) (h2 : i ≤ n) :
    rotateAccounts n i = i % n + 1 := by
  unfold rotateAccounts
  rcases eq_or_lt_of_le h2 with rfl | hlt
  · simp [Nat.mod_self]
  · rw [if_neg (by omega), Nat.mod_eq_of_lt hlt]

lemma rotateAccounts_mem (n i : Nat) (_h1 : 1 ≤ i) (h2 : i ≤ n) :
    1 ≤ rotateAccounts n i ∧ rotateAccounts n i ≤ n := by
  unfold rotateAccounts
  split <;> omega

lemma rotateAccounts_iterate (n i : Nat) (h1 : 1 ≤ i) (h2 : i ≤ n) :
    ∀ k, Nat.iterate (rotateAccounts n) k i = (i - 1 + k) % n + 1 := by
  intro k
  induction k with
  | zero =>
    simp only [Function.iterate_zero, id]
    rw [Nat.add_zero, Nat.mod_eq_of_lt (by omega), Nat.sub_add_cancel h1]
  | succ k ih =>
    rw [Function.iterate_succ_apply', ih]
    have hmem : 1 ≤ (i - 1 + k) % n + 1 ∧ (i - 1 + k) % n + 1 ≤ n := by
      constructor
      · omega
      · have := Nat.mod_lt (i - 1 + k) (show 0 < n by omega)
        omega
    rw [rotateAccounts_step n _ hmem.1 hmem.2, Nat.mod_add_mod]
    have harg : i - 1 + k + 1 = i - 1 + (k + 1) := by omega
    rw [harg]

/-- One page of a `Files.List` query response: the `Items` and the
`NextPageToken` (the empty string signals the final page). -/
structure PageResp where
  items : List RawFile
  nextPageToken : String
deriving Repr, DecidableEq

/-- The pagination loop of `Drive.GetObjectsByParent` (drive.go:157-177).
`responses` is the sequence of outcomes of the successive `query.Do()`
calls, consumed in order; `acc` is the `files` accumulator.  A page-fetch
error breaks out of the loop, as does an empty `NextPageToken`. -/
def listLoop (parse : String → Option Int) (now : Int) :
    List (Except Err PageResp) → List APIObject → List APIObject
  | [], acc => acc
  | resp :: rest, acc =>
    match resp with
    | .error _ => acc
    | .ok r =>
      let acc2 := acc ++ r.items.map (mapDriveToAPIObject parse now)
      if r.nextPageToken == "" then acc2
      else listLoop parse now rest acc2

/-- Embedding of `Drive.GetObjectsByParent` (drive.go:149-180).
`clientResult` is the outcome of `d.getClient()`; on client failure the
error is returned, otherwise the pagination loop runs and its result is
returned with a nil error. -/
def GetObjectsByParent (parse : String → Option Int) (now : Int)
    (clientResult : Except Err Unit)
    (responses : List (Except Err PageResp)) : Except Err (List APIObject) :=
  match clientResult with
  | .error e => .error e
  | .ok _ => .ok (listLoop parse now responses [])

lemma listLoop_ok_pages_then_error (parse : String → Option Int) (now : Int)
    (e : Err) (rest : List (Except Err PageResp)) :
    ∀ (okPages : List PageResp) (acc : List APIObject),
      (∀ p ∈ okPages, p.nextPageToken ≠ "") →
      listLoop parse now (okPages.map Except.ok ++ Except.error e :: rest) acc
        = acc ++ ((okPages.map PageResp.items).flatten.map
            (mapDriveToAPIObject parse now)) := by
  intro okPages
  induction okPages with
  | nil => intro acc _; simp [listLoop]
  | cons p ps ih =>
    intro acc hcont
    have hp : p.nextPageToken ≠ "" := hcont p (List.mem_cons_self p ps)
    simp only [List.map_cons, List.cons_append, listLoop]
    rw [if_neg (by simpa using hp)]
    simp only [List.append_eq]
    rw [ih _ (fun q hq => hcont q (List.mem_cons_of_mem p hq))]
    simp [List.map_cons, List.append_assoc]

/-- One tick of the change-polling loop in `Drive.startAutoRefresh`
(drive.go:57-86), observed through the sequence of objects it passes to
`d.Cache.Store`, in call order.  `responses` is the sequence of outcomes of
the successive `query.Do()` calls of this tick (the tick always starts with
an empty page token, i.e. a fresh query).  A page-fetch error breaks the
inner loop immediately; `Cache.Store` failures are only logged, so every
mapped object of a successfully fetched page appears in the trace. -/
def refreshTickStores (parse : String → Option Int) (now : Int) :
    List (Except Err PageResp) → List APIObject
  | [] => []
  | resp :: rest =>
    match resp with
    | .error _ => []
    | .ok r =>
      let objs := r.items.map (mapDriveToAPIObject parse now)
      if r.nextPageToken == "" then objs
      else objs ++ refreshTickStores parse now rest

/-- The perpetual loop of `Drive.startAutoRefresh`, restricted to finitely
many ticks: each element of `ticks` is the response sequence one tick
observes, and the result is the per-tick `Cache.Store` traces.  Each tick
re-runs the query from scratch (page token reset to the empty string), so
ticks are independent applications of `refreshTickStores`. -/
def runTicks (parse : String → Option Int) (now : Int)
    (ticks : List (List (Except Err PageResp))) : List (List APIObject) :=
  ticks.map (refreshTickStores parse now)

/-- The fields of an `http.Response` read by `Drive.FileSize`:
`StatusCode` and `ContentLength`. -/
structure HTTPResponse where
  statusCode : Nat
  contentLength : Int
deriving Repr, DecidableEq

/-- Embedding of `Drive.FileSize` (drive.go:91-108).  `clientResult` is the
outcome of `d.getClient()` and `download` the outcome of
`client.Files.Get(id).Download()`.  The Go function returns the pair
`(int64, error)`; `none` in the second component is a nil error. -/
def FileSize (clientResult : Except Err Unit)
    (download : Except Err HTTPResponse) : Int × Option Err :=
  match clientResult with
  | .error e => (0, some e)
  | .ok _ =>
    match download with
    | .error e => (0, some e)
    | .ok resp =>
      if resp.statusCode == 200 then (resp.contentLength, none)
      else (0, some ("Invalid status code " ++ toString resp.statusCode))

/-- Embedding of `Drive.GetObject` (drive.go:126-146).  `clientResult` is
the outcome of `d.getClient()`, `metaResult` of `client.Files.Get(id).Do()`.
When the reported `FileSize` is zero, the code calls `d.FileSize(id)`
(embedded `FileSize`, with its own client/download outcomes `fsClient`,
`fsDownload`); on a follow-up error the original size is kept and the call
still succeeds. -/
def GetObject (parse : String → Option Int) (now : Int)
    (clientResult : Except Err Unit) (metaResult : Except Err RawFile)
    (fsClient : Except Err Unit) (fsDownload : Except Err HTTPResponse) :
    Except Err APIObject :=
  match clientResult with
  | .error e => .error e
  | .ok _ =>
    match metaResult with
    | .error e => .error e
    | .ok o =>
      if o.fileSize == 0 then
        let fs := FileSize fsClient fsDownload
        let fileSize := match fs.2 with
          | some _ => o.fileSize
          | none => fs.1
        .ok (mapDriveToAPIObject parse now { o with fileSize := fileSize })
      else
        .ok (mapDriveToAPIObject parse now o)

/-- The scan of `r.Items` in `Drive.GetFileByNameAndParent`
(drive.go:194-198): return the first item whose `Title` equals `name`. -/
def findFirstByTitle (name : String) : List RawFile → Option RawFile
  | [] => none
  | f :: rest => if name == f.title then some f else findFirstByTitle name rest

/-- Embedding of `Drive.GetFileByNameAndParent` (drive.go:183-200).
`clientResult` is the outcome of `d.getClient()` and `queryResult` of the
single (unpaginated) `Files.List` query; on success the items are scanned
for an exact title match, and a miss produces the error message built by
`fmt.Errorf("Could not find %s in directory %v", name, parent)`. -/
def GetFileByNameAndParent (clientResult : Except Err Unit)
    (queryResult : Except Err (List RawFile)) (name parent : String) :
    Except Err RawFile :=
  match clientResult with
  | .error e => .error e
  | .ok _ =>
    match queryResult with
    | .error e => .error e
    | .ok items =>
      match findFirstByTitle name items with
      | some f => .ok f
      | none => .error ("Could not find " ++ name ++ " in directory " ++ parent)

/-- An `Account` (client ID/secret pair) as consumed by `Drive.authorize`. -/
structure Account where
  clientID : String
  clientSecret : String
deriving Repr, DecidableEq

/-- An `oauth2.Token` as persisted in the token file: access token, token
type, refresh token, expiry. -/
structure Token where
  accessToken : String
  tokenType : String
  refreshToken : String
  expiry : Int
deriving Repr, DecidableEq

/-- An `oauth2.Config` as built by `Drive.authorize`. -/
structure OAuthConfig where
  clientID : String
  clientSecret : String
  authURL : String
  tokenURL : String
  redirectURL : String
  scopes : List String
deriving Repr, DecidableEq

/-- The `oauth2.Config` literal built for one account in both branches of
`Drive.authorize` (drive.go:206-215 and 225-234); `gdrive.DriveScope` is the
full-drive scope string. -/
def mkConfig (account : Account) : OAuthConfig :=
  { clientID := account.clientID
    clientSecret := account.clientSecret
    authURL := "https://accounts.google.com/o/oauth2/auth"
    tokenURL := "https://accounts.google.com/o/oauth2/token"
    redirectURL := "urn:ietf:wg:oauth:2.0:oob"
    scopes := ["https://www.googleapis.com/auth/drive"] }

/-- Embedding of `getTokens` (drive.go:260-268).  `readResult` is the outcome
of `ioutil.ReadFile(tokenPath)` and `unmarshal` the oracle for
`json.Unmarshal` (`none` = malformed content, which leaves `tokens` at its
zero value — the error is discarded).  Every failure yields the empty list. -/
def getTokens (readResult : Except Err String)
    (unmarshal : String → Option (List Token)) : List Token :=
  match readResult with
  | .error _ => []
  | .ok s =>
    match unmarshal s with
    | some tokens => tokens
    | none => []

/-- Embedding of `storeTokens` (drive.go:270-277).  `marshal` is the oracle
for `json.Marshal` and `write` the oracle for `ioutil.WriteFile`.  A marshal
failure is wrapped and returned; the result of `ioutil.WriteFile` is
discarded (drive.go:275 ignores its return value) and the function returns a
nil error. -/
def storeTokens (marshal : List Token → Except Err String)
    (write : String → Except Err Unit) (tokens : List Token) :
    Except Err Unit :=
  match marshal tokens with
  | .error e => .error ("Could not store tokens, " ++ e)
  | .ok j =>
    let _ := write j
    .ok ()

/-- State threaded through the consent-exchange loop of `Drive.authorize`
(drive.go:205-219): the `d.tokens` and `d.configs` slices being appended to,
plus the trace of accounts for which `getTokenFromWeb` was invoked, in call
order. -/
structure AuthLoopState where
  tokens : List Token
  configs : List OAuthConfig
  exchanged : List Account
deriving Repr, DecidableEq

/-- One iteration of the consent-exchange loop (drive.go:205-219): build the
config, perform the interactive exchange (`exchange` is the oracle for
`getTokenFromWeb`, whose failures are fatal and thus never observed as
return values), append both. -/
def authStep (exchange : Account → Token) (st : AuthLoopState)
    (account : Account) : AuthLoopState :=
  let config := mkConfig account
  let token := exchange account
  { tokens := st.tokens ++ [token]
    configs := st.configs ++ [config]
    exchanged := st.exchanged ++ [account] }

/-- The observable outcome of `Drive.authorize`: the final `d.tokens` and
`d.configs`, the trace of consent exchanges, the token sequence passed to
`storeTokens` (`none` when `storeTokens` is not called), and the returned
error. -/
structure AuthResult where
  tokens : List Token
  configs : List OAuthConfig
  exchanged : List Account
  persisted : Option (List Token)
  result : Except Err Unit
deriving Repr

/-- Embedding of `Drive.authorize` (drive.go:202-240).  `loadedTokens` is
the result of `getTokens(tokenPath)` assigned to `d.tokens`; if it is
shorter than `accounts`, the consent-exchange loop runs over every account
and the full resulting token slice is persisted via `storeTokens`
(whose error, if any, is returned); otherwise only configs are rebuilt and
nothing is exchanged or persisted. -/
def authorize (accounts : List Account) (loadedTokens : List Token)
    (exchange : Account → Token)
    (marshal : List Token → Except Err String)
    (write : String → Except Err Unit) : AuthResult :=
  if loadedTokens.length < accounts.length then
    let st := accounts.foldl (authStep exchange)
      { tokens := loadedTokens, configs := [], exchanged := [] }
    { tokens := st.tokens
      configs := st.configs
      exchanged := st.exchanged
      persisted := some st.tokens
      result := storeTokens marshal write st.tokens }
  else
    { tokens := loadedTokens
      configs := accounts.foldl (fun cfgs a => cfgs ++ [mkConfig a]) []
      exchanged := []
      persisted := none
      result := .ok () }

/-- The token `Drive.getClient` / `Drive.getNativeClient` read for the
active account: `d.tokens[d.activeAccountID-1]` (drive.go:243, 248). -/
def activeToken (tokens : List Token) (activeAccountID : Nat) : Option Token :=
  tokens[activeAccountID - 1]?

lemma authLoop_foldl (exchange : Account → Token) :
    ∀ (accounts : List Account) (st : AuthLoopState),
      accounts.foldl (authStep exchange) st =
        { tokens := st.tokens ++ accounts.map exchange
          configs := st.configs ++ accounts.map mkConfig
          exchanged := st.exchanged ++ accounts } := by
  intro accounts
  induction accounts with
  | nil => intro st; simp
  | cons a rest ih =>
    intro st
    simp only [List.foldl_cons, ih, authStep, List.map_cons]
    simp [List.append_assoc]

lemma configLoop_foldl :
    ∀ (accounts : List Account) (cfgs : List OAuthConfig),
      accounts.foldl (fun cfgs a => cfgs ++ [mkConfig a]) cfgs
        = cfgs ++ accounts.map mkConfig := by
  intro accounts
  induction accounts with
  | nil => intro cfgs; simp
  | cons a rest ih =>
    intro cfgs
    simp only [List.foldl_cons, ih, List.map_cons]
    simp [List.append_assoc]

lemma findFirstByTitle_eq_find? (name : String) :
    ∀ items : List RawFile,
      findFirstByTitle name items = items.find? (fun f => name == f.title) := by
  intro items
  induction items with
  | nil => rfl
  | cons f rest ih =>
    by_cases h : name == f.title
    · simp [findFirstByTitle, List.find?, h]
    · simp only [findFirstByTitle, if_neg (by simpa using h), ih]
      simp [List.find?, h]

/-- Claim C1: whenever `GetObjectsByParent` has successfully obtained a
client and a page fetch fails after any (possibly empty) run of successful
non-final pages, pagination stops and the objects accumulated from the
earlier pages are returned with a nil error — the page-fetch error is never
surfaced to the caller. -/
theorem C1_getObjectsByParent_swallows_page_errors
    (parse : String → Option Int) (now : Int) (okPages : List PageResp)
    (e : Err) (rest : List (Except Err PageResp))
    (hcont : ∀ p ∈ okPages, p.nextPageToken ≠ "") :
    GetObjectsByParent parse now (.ok ())
        (okPages.map Except.ok ++ Except.error e :: rest)
      = .ok ((okPages.map PageResp.items).flatten.map
          (mapDriveToAPIObject parse now)) := by
  unfold GetObjectsByParent
  rw [listLoop_ok_pages_then_error parse now e rest okPages [] hcont]
  simp

/-- Witness for C1: one successful non-final page followed by a failing
page fetch yields that page's mapped objects as a success. -/
theorem C1_getObjectsByParent_swallows_page_errors_witness :
    GetObjectsByParent (fun _ => none) 0 (.ok ())
        ([PageResp.mk [RawFile.mk "f1" "A" "text/plain" 5 "d" "u" []] "tok"].map
            Except.ok
          ++ Except.error "network failure" :: [])
      = .ok (([PageResp.mk [RawFile.mk "f1" "A" "text/plain" 5 "d" "u" []]
            "tok"].map PageResp.items).flatten.map
          (mapDriveToAPIObject (fun _ => none) 0)) :=
  C1_getObjectsByParent_swallows_page_errors (fun _ => none) 0
    [PageResp.mk [RawFile.mk "f1" "A" "text/plain" 5 "d" "u" []] "tok"]
    "network failure" [] (by decide)

/-- Claim C2: for a pool of `n ≥ 1` configs and an active index `i` with
`1 ≤ i ≤ n`, one rotation yields `(i mod n) + 1`, the invariant
`1 ≤ index ≤ n` is preserved, and `k` repeated rotations land on
`((i - 1 + k) mod n) + 1`, i.e. the index cycles through `1, …, n`. -/
theorem C2_rotateAccounts_cycles (n i k : Nat) (h1 : 1 ≤ i) (h2 : i ≤ n) :
    rotateAccounts n i = i % n + 1
    ∧ 1 ≤ rotateAccounts n i ∧ rotateAccounts n i ≤ n
    ∧ Nat.iterate (rotateAccounts n) k i = (i - 1 + k) % n + 1 :=
  ⟨rotateAccounts_step n i h1 h2, (rotateAccounts_mem n i h1 h2).1,
   (rotateAccounts_mem n i h1 h2).2, rotateAccounts_iterate n i h1 h2 k⟩

/-- Witness for C2 at `n = 3`, `i = 3`, `k = 4`. -/
theorem C2_rotateAccounts_cycles_witness :
    rotateAccounts 3 3 = 3 % 3 + 1
    ∧ 1 ≤ rotateAccounts 3 3 ∧ rotateAccounts 3 3 ≤ 3
    ∧ Nat.iterate (rotateAccounts 3) 4 3 = (3 - 1 + 4) % 3 + 1 :=
  C2_rotateAccounts_cycles 3 3 4 (by decide) (by decide)

/-- Counterexample to claim C3: a failing file write does not make
`storeTokens` return an error — with a marshaller that succeeds and a write
oracle that fails with an IO error, `storeTokens` returns a nil error, so
the IO failure is silently ignored rather than surfaced. -/
theorem C3_storeTokens_write_error_counterexample :
    storeTokens (fun _ => .ok "[]") (fun _ => .error "disk full") [] = .ok ()
    ∧ (fun _ : String => (.error "disk full" : Except Err Unit)) "[]"
        = .error "disk full" :=
  ⟨rfl, rfl⟩

/-- Claim C3 (amended): `storeTokens` returns an error exactly when
serialization fails, wrapping the marshal error; the outcome of the file
write is discarded, so the returned value is entirely independent of the
write oracle — an IO failure while writing the token file is silently
ignored, not surfaced to the caller. -/
theorem C3_storeTokens_amended
    (marshal : List Token → Except Err String)
    (write write2 : String → Except Err Unit) (tokens : List Token) :
    (∀ e, marshal tokens = .error e →
      storeTokens marshal write tokens
        = .error ("Could not store tokens, " ++ e))
    ∧ (∀ j, marshal tokens = .ok j →
      storeTokens marshal write tokens = .ok ())
    ∧ storeTokens marshal write tokens = storeTokens marshal write2 tokens := by
  refine ⟨?_, ?_, ?_⟩
  · intro e he; simp [storeTokens, he]
  · intro j hj; simp [storeTokens, hj]
  · unfold storeTokens; cases marshal tokens <;> rfl

/-- Witness for C3 (amended) with a failing marshaller and two distinct
write oracles. -/
theorem C3_storeTokens_amended_witness :
    (∀ e, (fun _ : List Token => (.error "cycle" : Except Err String)) []
        = .error e →
      storeTokens (fun _ => .error "cycle") (fun _ => .error "disk full") []
        = .error ("Could not store tokens, " ++ e))
    ∧ (∀ j, (fun _ : List Token => (.error "cycle" : Except Err String)) []
        = .ok j →
      storeTokens (fun _ => .error "cycle") (fun _ => .error "disk full") []
        = .ok ())
    ∧ storeTokens (fun _ => .error "cycle") (fun _ => .error "disk full") []
        = storeTokens (fun _ => .error "cycle") (fun _ => .ok ()) [] :=
  C3_storeTokens_amended (fun _ => .error "cycle")
    (fun _ => .error "disk full") (fun _ => .ok ()) []

/-- Claim C4: when the metadata fetch succeeds with reported size zero,
`GetObject` consults the follow-up `FileSize` call; a follow-up failure is
never propagated and the object keeps the original (zero) size, while a
follow-up success substitutes the resolved size.  With a nonzero reported
size the result does not depend on the follow-up oracles at all and the
reported size is returned unchanged. -/
theorem C4_getObject_size_resolution
    (parse : String → Option Int) (now : Int) (o : RawFile)
    (fsClient fsClient2 : Except Err Unit)
    (fsDownload fsDownload2 : Except Err HTTPResponse) :
    (o.fileSize = 0 → ∀ e, (FileSize fsClient fsDownload).2 = some e →
      GetObject parse now (.ok ()) (.ok o) fsClient fsDownload
        = .ok (mapDriveToAPIObject parse now o))
    ∧ (o.fileSize = 0 → ∀ fs, FileSize fsClient fsDownload = (fs, none) →
      GetObject parse now (.ok ()) (.ok o) fsClient fsDownload
        = .ok (mapDriveToAPIObject parse now { o with fileSize := fs }))
    ∧ (o.fileSize ≠ 0 →
      GetObject parse now (.ok ()) (.ok o) fsClient fsDownload
        = GetObject parse now (.ok ()) (.ok o) fsClient2 fsDownload2
      ∧ GetObject parse now (.ok ()) (.ok o) fsClient fsDownload
        = .ok (mapDriveToAPIObject parse now o)) := by
  refine ⟨?_, ?_, ?_⟩
  · intro h0 e he
    have hbeq : (o.fileSize == 0) = true := by simpa using h0
    simp only [GetObject, he, hbeq, if_true]
  · intro h0 fs hfs
    have hbeq : (o.fileSize == 0) = true := by simpa using h0
    simp only [GetObject, hfs, hbeq, if_true]
  · intro hne
    have hbeq : (o.fileSize == 0) = false := by simpa using hne
    constructor <;> simp [GetObject, hbeq]

/-- Witness for C4 with a zero-size file and a failing follow-up. -/
theorem C4_getObject_size_resolution_witness :
    ((RawFile.mk "f" "A" "text/plain" 0 "d" "u" []).fileSize = 0 → ∀ e,
      (FileSize (.error "no client") (.error "down")).2 = some e →
      GetObject (fun _ => none) 0 (.ok ())
          (.ok (RawFile.mk "f" "A" "text/plain" 0 "d" "u" []))
          (.error "no client") (.error "down")
        = .ok (mapDriveToAPIObject (fun _ => none) 0
            (RawFile.mk "f" "A" "text/plain" 0 "d" "u" [])))
    ∧ ((RawFile.mk "f" "A" "text/plain" 0 "d" "u" []).fileSize = 0 → ∀ fs,
      FileSize (.error "no client") (.error "down") = (fs, none) →
      GetObject (fun _ => none) 0 (.ok ())
          (.ok (RawFile.mk "f" "A" "text/plain" 0 "d" "u" []))
          (.error "no client") (.error "down")
        = .ok (mapDriveToAPIObject (fun _ => none) 0
            { RawFile.mk "f" "A" "text/plain" 0 "d" "u" [] with fileSize := fs }))
    ∧ ((RawFile.mk "f" "A" "text/plain" 0 "d" "u" []).fileSize ≠ 0 →
      GetObject (fun _ => none) 0 (.ok ())
          (.ok (RawFile.mk "f" "A" "text/plain" 0 "d" "u" []))
          (.error "no client") (.error "down")
        = GetObject (fun _ => none) 0 (.ok ())
            (.ok (RawFile.mk "f" "A" "text/plain" 0 "d" "u" []))
            (.ok ()) (.ok (HTTPResponse.mk 200 7))
      ∧ GetObject (fun _ => none) 0 (.ok ())
          (.ok (RawFile.mk "f" "A" "text/plain" 0 "d" "u" []))
          (.error "no client") (.error "down")
        = .ok (mapDriveToAPIObject (fun _ => none) 0
            (RawFile.mk "f" "A" "text/plain" 0 "d" "u" []))) :=
  C4_getObject_size_resolution (fun _ => none) 0
    (RawFile.mk "f" "A" "text/plain" 0 "d" "u" [])
    (.error "no client") (.ok ()) (.error "down") (.ok (HTTPResponse.mk 200 7))

/-- Claim C5: a poll tick whose first page succeeds with a continuation
token and whose second page fetch fails stores exactly page 1's mapped
objects into the Cache (in order), independently of whatever responses
would have followed (pages 2 and 3 are neither fetched nor retried within
the tick), and the next tick runs its own fresh query whose trace is
unaffected by this tick's failure. -/
theorem C5_refreshTick_page2_failure
    (parse : String → Option Int) (now : Int) (p1 : PageResp) (e : Err)
    (rest nextTick : List (Except Err PageResp))
    (h1 : p1.nextPageToken ≠ "") :
    refreshTickStores parse now (Except.ok p1 :: Except.error e :: rest)
      = p1.items.map (mapDriveToAPIObject parse now)
    ∧ runTicks parse now [Except.ok p1 :: Except.error e :: rest, nextTick]
      = [p1.items.map (mapDriveToAPIObject parse now),
         refreshTickStores parse now nextTick] := by
  have htick :
      refreshTickStores parse now (Except.ok p1 :: Except.error e :: rest)
        = p1.items.map (mapDriveToAPIObject parse now) := by
    simp only [refreshTickStores]
    rw [if_neg (by simpa using h1)]
    simp [refreshTickStores]
  exact ⟨htick, by simp [runTicks, htick]⟩

/-- Witness for C5: a concrete 3-page tick failing on page 2, followed by a
fresh single-page tick. -/
theorem C5_refreshTick_page2_failure_witness :
    refreshTickStores (fun _ => none) 0
        (Except.ok (PageResp.mk [RawFile.mk "f1" "A" "text/plain" 5 "d" "u" []]
            "tok")
          :: Except.error "boom"
          :: [Except.ok (PageResp.mk [] "")])
      = [RawFile.mk "f1" "A" "text/plain" 5 "d" "u" []].map
          (mapDriveToAPIObject (fun _ => none) 0)
    ∧ runTicks (fun _ => none) 0
        [Except.ok (PageResp.mk [RawFile.mk "f1" "A" "text/plain" 5 "d" "u" []]
            "tok")
          :: Except.error "boom"
          :: [Except.ok (PageResp.mk [] "")],
         [Except.ok (PageResp.mk [RawFile.mk "f2" "B" "text/plain" 6 "d" "u" []]
            "")]]
      = [[RawFile.mk "f1" "A" "text/plain" 5 "d" "u" []].map
          (mapDriveToAPIObject (fun _ => none) 0),
         refreshTickStores (fun _ => none) 0
           [Except.ok (PageResp.mk [RawFile.mk "f2" "B" "text/plain" 6 "d" "u" []]
             "")]] :=
  C5_refreshTick_page2_failure (fun _ => none) 0
    (PageResp.mk [RawFile.mk "f1" "A" "text/plain" 5 "d" "u" []] "tok") "boom"
    [Except.ok (PageResp.mk [] "")]
    [Except.ok (PageResp.mk [RawFile.mk "f2" "B" "text/plain" 6 "d" "u" []] "")]
    (by decide)

/-- Claim C6: when the query succeeds, `GetFileByNameAndParent` scans the
returned items in order and returns the first item whose title equals the
requested name exactly (the first match of the in-order scan); when no
title matches exactly, it returns an error whose message embeds both the
requested name and the parent identifier. -/
theorem C6_getFileByNameAndParent_scan
    (items : List RawFile) (name parent : String) :
    (∀ f, items.find? (fun f => name == f.title) = some f →
      GetFileByNameAndParent (.ok ()) (.ok items) name parent = .ok f)
    ∧ ((∀ f ∈ items, f.title ≠ name) →
      GetFileByNameAndParent (.ok ()) (.ok items) name parent
          = .error ("Could not find " ++ name ++ " in directory " ++ parent)
      ∧ (∃ a b, ("Could not find " ++ name ++ " in directory " ++ parent : String)
            = a ++ name ++ b)
      ∧ (∃ c, ("Could not find " ++ name ++ " in directory " ++ parent : String)
            = c ++ parent)) := by
  constructor
  · intro f hf
    simp only [GetFileByNameAndParent, findFirstByTitle_eq_find?, hf]
  · intro hmiss
    have hnone : items.find? (fun f => name == f.title) = none := by
      rw [List.find?_eq_none]
      intro f hf
      simp only [beq_iff_eq]
      exact fun h => hmiss f hf h.symm
    refine ⟨by simp only [GetFileByNameAndParent, findFirstByTitle_eq_find?,
        hnone], ?_, ?_⟩
    · exact ⟨"Could not find ", " in directory " ++ parent, by
        rw [String.append_assoc, String.append_assoc]⟩
    · exact ⟨"Could not find " ++ name ++ " in directory ", rfl⟩

/-- Witness for C6: a two-item query where the second item is the exact
match, and a miss on a disjoint item list. -/
theorem C6_getFileByNameAndParent_scan_witness :
    (∀ f, [RawFile.mk "f1" "Other" "text/plain" 1 "d" "u" [],
           RawFile.mk "f2" "Movie" "text/plain" 2 "d" "u" []].find?
        (fun f => "Movie" == f.title) = some f →
      GetFileByNameAndParent (.ok ())
          (.ok [RawFile.mk "f1" "Other" "text/plain" 1 "d" "u" [],
                RawFile.mk "f2" "Movie" "text/plain" 2 "d" "u" []])
          "Movie" "root" = .ok f)
    ∧ ((∀ f ∈ [RawFile.mk "f1" "Other" "text/plain" 1 "d" "u" [],
               RawFile.mk "f2" "Movie" "text/plain" 2 "d" "u" []],
          f.title ≠ "Movie") →
      GetFileByNameAndParent (.ok ())
          (.ok [RawFile.mk "f1" "Other" "text/plain" 1 "d" "u" [],
                RawFile.mk "f2" "Movie" "text/plain" 2 "d" "u" []])
          "Movie" "root"
          = .error ("Could not find " ++ "Movie" ++ " in directory " ++ "root")
      ∧ (∃ a b, ("Could not find " ++ "Movie" ++ " in directory " ++ "root" : String)
            = a ++ "Movie" ++ b)
      ∧ (∃ c, ("Could not find " ++ "Movie" ++ " in directory " ++ "root" : String)
            = c ++ "root")) :=
  C6_getFileByNameAndParent_scan
    [RawFile.mk "f1" "Other" "text/plain" 1 "d" "u" [],
     RawFile.mk "f2" "Movie" "text/plain" 2 "d" "u" []] "Movie" "root"

/-- Claim C7: when the client is obtained and the download-initiation
request succeeds, `FileSize` returns the response's content length with a
nil error exactly when the status code is 200; any other status yields size
zero and an error whose message carries the observed status code. -/
theorem C7_fileSize_status (resp : HTTPResponse) :
    (resp.statusCode = 200 →
      FileSize (.ok ()) (.ok resp) = (resp.contentLength, none))
    ∧ (resp.statusCode ≠ 200 →
      FileSize (.ok ()) (.ok resp)
        = (0, some ("Invalid status code " ++ toString resp.statusCode))) := by
  constructor
  · intro h200
    simp [FileSize, h200]
  · intro hne
    have hbeq : (resp.statusCode == 200) = false := by simpa using hne
    simp [FileSize, hbeq]

/-- Witness for C7 at a concrete non-success response (status 403,
content length 99), exercising the error branch. -/
theorem C7_fileSize_status_witness :
    ((HTTPResponse.mk 403 99).statusCode = 200 →
      FileSize (.ok ()) (.ok (HTTPResponse.mk 403 99))
        = ((HTTPResponse.mk 403 99).contentLength, none))
    ∧ ((HTTPResponse.mk 403 99).statusCode ≠ 200 →
      FileSize (.ok ()) (.ok (HTTPResponse.mk 403 99))
        = (0, some ("Invalid status code "
            ++ toString (HTTPResponse.mk 403 99).statusCode))) :=
  C7_fileSize_status (HTTPResponse.mk 403 99)

/-- Claim C8: for `N ≥ 1` accounts and an empty loaded token store,
`authorize` performs exactly one consent exchange per account in account
order (trace = the account list), builds one config per account in the same
order, and passes exactly the `N` freshly exchanged tokens, in the same
order, to `storeTokens`; with at least `N` stored tokens it performs zero
exchanges and never calls `storeTokens`. -/
theorem C8_authorize_exchanges
    (accounts : List Account) (loadedTokens : List Token)
    (exchange : Account → Token)
    (marshal : List Token → Except Err String)
    (write : String → Except Err Unit)
    (hN : 1 ≤ accounts.length) :
    (loadedTokens = [] →
      (authorize accounts loadedTokens exchange marshal write).exchanged
          = accounts
      ∧ (authorize accounts loadedTokens exchange marshal write).configs
          = accounts.map mkConfig
      ∧ (authorize accounts loadedTokens exchange marshal write).persisted
          = some (accounts.map exchange)
      ∧ (accounts.map exchange).length = accounts.length)
    ∧ (accounts.length ≤ loadedTokens.length →
      (authorize accounts loadedTokens exchange marshal write).exchanged = []
      ∧ (authorize accounts loadedTokens exchange marshal write).persisted
          = none) := by
  constructor
  · rintro rfl
    have hlt : ([] : List Token).length < accounts.length := by
      simpa using hN
    simp only [authorize, if_pos hlt, authLoop_foldl]
    refine ⟨by simp, by simp, by simp, by simp⟩
  · intro hge
    have hnlt : ¬ loadedTokens.length < accounts.length := by omega
    simp only [authorize, if_neg hnlt]
    exact ⟨trivial, trivial⟩

/-- Witness for C8: two accounts against an empty token store. -/
theorem C8_authorize_exchanges_witness :
    (([] : List Token) = [] →
      (authorize [Account.mk "id1" "sec1", Account.mk "id2" "sec2"] []
          (fun a => Token.mk a.clientID "Bearer" "r" 0)
          (fun _ => .ok "[]") (fun _ => .ok ())).exchanged
          = [Account.mk "id1" "sec1", Account.mk "id2" "sec2"]
      ∧ (authorize [Account.mk "id1" "sec1", Account.mk "id2" "sec2"] []
          (fun a => Token.mk a.clientID "Bearer" "r" 0)
          (fun _ => .ok "[]") (fun _ => .ok ())).configs
          = [Account.mk "id1" "sec1", Account.mk "id2" "sec2"].map mkConfig
      ∧ (authorize [Account.mk "id1" "sec1", Account.mk "id2" "sec2"] []
          (fun a => Token.mk a.clientID "Bearer" "r" 0)
          (fun _ => .ok "[]") (fun _ => .ok ())).persisted
          = some ([Account.mk "id1" "sec1", Account.mk "id2" "sec2"].map
              (fun a => Token.mk a.clientID "Bearer" "r" 0))
      ∧ ([Account.mk "id1" "sec1", Account.mk "id2" "sec2"].map
          (fun a => Token.mk a.clientID "Bearer" "r" 0)).length
          = [Account.mk "id1" "sec1", Account.mk "id2" "sec2"].length)
    ∧ ([Account.mk "id1" "sec1", Account.mk "id2" "sec2"].length
        ≤ ([] : List Token).length →
      (authorize [Account.mk "id1" "sec1", Account.mk "id2" "sec2"] []
          (fun a => Token.mk a.clientID "Bearer" "r" 0)
          (fun _ => .ok "[]") (fun _ => .ok ())).exchanged = []
      ∧ (authorize [Account.mk "id1" "sec1", Account.mk "id2" "sec2"] []
          (fun a => Token.mk a.clientID "Bearer" "r" 0)
          (fun _ => .ok "[]") (fun _ => .ok ())).persisted = none) :=
  C8_authorize_exchanges [Account.mk "id1" "sec1", Account.mk "id2" "sec2"]
    [] (fun a => Token.mk a.clientID "Bearer" "r" 0)
    (fun _ => .ok "[]") (fun _ => .ok ()) (by decide)

/-- Claim C9: when the modification timestamp of a raw file does not parse,
`mapDriveToAPIObject` still returns an object (the mapper is total and
never fails) whose modification time is the wall-clock instant `now` read
at mapping time; every other field is identical to the mapping obtained
with a parser that succeeds on the same raw file. -/
theorem C9_mapDrive_unparsable_timestamp
    (parse parse2 : String → Option Int) (now t : Int) (file : RawFile)
    (hfail : parse file.modifiedDate = none)
    (hok : parse2 file.modifiedDate = some t) :
    (mapDriveToAPIObject parse now file).mtime = now
    ∧ (mapDriveToAPIObject parse2 now file).mtime = t
    ∧ (mapDriveToAPIObject parse now file).id
        = (mapDriveToAPIObject parse2 now file).id
    ∧ (mapDriveToAPIObject parse now file).parents
        = (mapDriveToAPIObject parse2 now file).parents
    ∧ (mapDriveToAPIObject parse now file).name
        = (mapDriveToAPIObject parse2 now file).name
    ∧ (mapDriveToAPIObject parse now file).isDir
        = (mapDriveToAPIObject parse2 now file).isDir
    ∧ (mapDriveToAPIObject parse now file).size
        = (mapDriveToAPIObject parse2 now file).size
    ∧ (mapDriveToAPIObject parse now file).downloadURL
        = (mapDriveToAPIObject parse2 now file).downloadURL := by
  simp [mapDriveToAPIObject, hfail, hok]

/-- Witness for C9: a raw file whose timestamp the failing parser rejects
and a second parser accepts. -/
theorem C9_mapDrive_unparsable_timestamp_witness :
    (mapDriveToAPIObject (fun _ => none) 77
        (RawFile.mk "f" "A" "text/plain" 5 "not-a-date" "u" [])).mtime = 77
    ∧ (mapDriveToAPIObject (fun _ => some 42) 77
        (RawFile.mk "f" "A" "text/plain" 5 "not-a-date" "u" [])).mtime = 42
    ∧ (mapDriveToAPIObject (fun _ => none) 77
        (RawFile.mk "f" "A" "text/plain" 5 "not-a-date" "u" [])).id
      = (mapDriveToAPIObject (fun _ => some 42) 77
        (RawFile.mk "f" "A" "text/plain" 5 "not-a-date" "u" [])).id
    ∧ (mapDriveToAPIObject (fun _ => none) 77
        (RawFile.mk "f" "A" "text/plain" 5 "not-a-date" "u" [])).parents
      = (mapDriveToAPIObject (fun _ => some 42) 77
        (RawFile.mk "f" "A" "text/plain" 5 "not-a-date" "u" [])).parents
    ∧ (mapDriveToAPIObject (fun _ => none) 77
        (RawFile.mk "f" "A" "text/plain" 5 "not-a-date" "u" [])).name
      = (mapDriveToAPIObject (fun _ => some 42) 77
        (RawFile.mk "f" "A" "text/plain" 5 "not-a-date" "u" [])).name
    ∧ (mapDriveToAPIObject (fun _ => none) 77
        (RawFile.mk "f" "A" "text/plain" 5 "not-a-date" "u" [])).isDir
      = (mapDriveToAPIObject (fun _ => some 42) 77
        (RawFile.mk "f" "A" "text/plain" 5 "not-a-date" "u" [])).isDir
    ∧ (mapDriveToAPIObject (fun _ => none) 77
        (RawFile.mk "f" "A" "text/plain" 5 "not-a-date" "u" [])).size
      = (mapDriveToAPIObject (fun _ => some 42) 77
        (RawFile.mk "f" "A" "text/plain" 5 "not-a-date" "u" [])).size
    ∧ (mapDriveToAPIObject (fun _ => none) 77
        (RawFile.mk "f" "A" "text/plain" 5 "not-a-date" "u" [])).downloadURL
      = (mapDriveToAPIObject (fun _ => some 42) 77
        (RawFile.mk "f" "A" "text/plain" 5 "not-a-date" "u" [])).downloadURL :=
  C9_mapDrive_unparsable_timestamp (fun _ => none) (fun _ => some 42) 77 42
    (RawFile.mk "f" "A" "text/plain" 5 "not-a-date" "u" []) rfl rfl

/-- Claim C10: when `getTokens` loads `k` tokens with `0 < k < N` accounts,
`authorize` runs the exchange loop over all `N` accounts and appends the
`N` fresh tokens after the `k` stale stored ones: the resulting (and
persisted) token sequence is `loaded ++ exchanged`, of length `k + N`, its
first `k` entries are the stored tokens, the token read for the initially
active credential (`d.tokens[activeAccountID-1]` with the initial index 1)
is the first stored stale token, and the token actually exchanged for
account 1 sits at position `k`, not position 0. -/
theorem C10_authorize_stale_positional_binding
    (accounts : List Account) (readResult : Except Err String)
    (unmarshal : String → Option (List Token))
    (exchange : Account → Token)
    (marshal : List Token → Except Err String)
    (write : String → Except Err Unit) (a0 : Account)
    (hhead : accounts.head? = some a0)
    (hk : 0 < (getTokens readResult unmarshal).length)
    (hkN : (getTokens readResult unmarshal).length < accounts.length) :
    (authorize accounts (getTokens readResult unmarshal) exchange marshal
        write).tokens
      = getTokens readResult unmarshal ++ accounts.map exchange
    ∧ (authorize accounts (getTokens readResult unmarshal) exchange marshal
        write).persisted
      = some (getTokens readResult unmarshal ++ accounts.map exchange)
    ∧ (authorize accounts (getTokens readResult unmarshal) exchange marshal
        write).tokens.length
      = (getTokens readResult unmarshal).length + accounts.length
    ∧ (authorize accounts (getTokens readResult unmarshal) exchange marshal
        write).tokens.take (getTokens readResult unmarshal).length
      = getTokens readResult unmarshal
    ∧ activeToken (authorize accounts (getTokens readResult unmarshal)
        exchange marshal write).tokens initialActiveAccountID
      = (getTokens readResult unmarshal)[0]?
    ∧ (authorize accounts (getTokens readResult unmarshal) exchange marshal
        write).tokens[(getTokens readResult unmarshal).length]?
      = some (exchange a0) := by
  set loaded := getTokens readResult unmarshal with hloaded
  have htokens :
      (authorize accounts loaded exchange marshal write).tokens
        = loaded ++ accounts.map exchange := by
    simp [authorize, if_pos hkN, authLoop_foldl]
  have hpersist :
      (authorize accounts loaded exchange marshal write).persisted
        = some (loaded ++ accounts.map exchange) := by
    simp [authorize, if_pos hkN, authLoop_foldl]
  refine ⟨htokens, hpersist, ?_, ?_, ?_, ?_⟩
  · rw [htokens]; simp
  · rw [htokens]; simp
  · rw [htokens]
    unfold activeToken initialActiveAccountID
    exact List.getElem?_append_left hk
  · rw [htokens, List.getElem?_append_right (Nat.le_refl loaded.length)]
    cases accounts with
    | nil => simp at hhead
    | cons a rest =>
      have : a = a0 := by simpa using hhead
      subst this
      simp

/-- Witness for C10: one stored stale token against two accounts; the
initially active credential reads the stale token, while account 1's fresh
token sits at position 1. -/
theorem C10_authorize_stale_positional_binding_witness :
    (authorize [Account.mk "id1" "sec1", Account.mk "id2" "sec2"]
        (getTokens (.ok "file") (fun _ => some [Token.mk "stale" "Bearer" "r" 0]))
        (fun a => Token.mk a.clientID "Bearer" "r" 1)
        (fun _ => .ok "[]") (fun _ => .ok ())).tokens
      = getTokens (.ok "file") (fun _ => some [Token.mk "stale" "Bearer" "r" 0])
        ++ [Account.mk "id1" "sec1", Account.mk "id2" "sec2"].map
            (fun a => Token.mk a.clientID "Bearer" "r" 1)
    ∧ (authorize [Account.mk "id1" "sec1", Account.mk "id2" "sec2"]
        (getTokens (.ok "file") (fun _ => some [Token.mk "stale" "Bearer" "r" 0]))
        (fun a => Token.mk a.clientID "Bearer" "r" 1)
        (fun _ => .ok "[]") (fun _ => .ok ())).persisted
      = some (getTokens (.ok "file")
            (fun _ => some [Token.mk "stale" "Bearer" "r" 0])
          ++ [Account.mk "id1" "sec1", Account.mk "id2" "sec2"].map
              (fun a => Token.mk a.clientID "Bearer" "r" 1))
    ∧ (authorize [Account.mk "id1" "sec1", Account.mk "id2" "sec2"]
        (getTokens (.ok "file") (fun _ => some [Token.mk "stale" "Bearer" "r" 0]))
        (fun a => Token.mk a.clientID "Bearer" "r" 1)
        (fun _ => .ok "[]") (fun _ => .ok ())).tokens.length
      = (getTokens (.ok "file")
          (fun _ => some [Token.mk "stale" "Bearer" "r" 0])).length
        + [Account.mk "id1" "sec1", Account.mk "id2" "sec2"].length
    ∧ (authorize [Account.mk "id1" "sec1", Account.mk "id2" "sec2"]
        (getTokens (.ok "file") (fun _ => some [Token.mk "stale" "Bearer" "r" 0]))
        (fun a => Token.mk a.clientID "Bearer" "r" 1)
        (fun _ => .ok "[]") (fun _ => .ok ())).tokens.take
          (getTokens (.ok "file")
            (fun _ => some [Token.mk "stale" "Bearer" "r" 0])).length
      = getTokens (.ok "file") (fun _ => some [Token.mk "stale" "Bearer" "r" 0])
    ∧ activeToken (authorize [Account.mk "id1" "sec1", Account.mk "id2" "sec2"]
        (getTokens (.ok "file") (fun _ => some [Token.mk "stale" "Bearer" "r" 0]))
        (fun a => Token.mk a.clientID "Bearer" "r" 1)
        (fun _ => .ok "[]") (fun _ => .ok ())).tokens initialActiveAccountID
      = (getTokens (.ok "file")
          (fun _ => some [Token.mk "stale" "Bearer" "r" 0]))[0]?
    ∧ (authorize [Account.mk "id1" "sec1", Account.mk "id2" "sec2"]
        (getTokens (.ok "file") (fun _ => some [Token.mk "stale" "Bearer" "r" 0]))
        (fun a => Token.mk a.clientID "Bearer" "r" 1)
        (fun _ => .ok "[]") (fun _ => .ok ())).tokens[(getTokens (.ok "file")
          (fun _ => some [Token.mk "stale" "Bearer" "r" 0])).length]?
      = some ((fun a => Token.mk a.clientID "Bearer" "r" 1)
          (Account.mk "id1" "sec1")) :=
  C10_authorize_stale_positional_binding
    [Account.mk "id1" "sec1", Account.mk "id2" "sec2"]
    (.ok "file") (fun _ => some [Token.mk "stale" "Bearer" "r" 0])
    (fun a => Token.mk a.clientID "Bearer" "r" 1)
    (fun _ => .ok "[]") (fun _ => .ok ()) (Account.mk "id1" "sec1")
    rfl (by decide) (by decide)
